import Mathlib

/-
Verification of the NEAR-Catalyst multi-agent orchestration core.

This file embeds, as executable Lean definitions, the parts of the code that
the specification claims are about:

* the cache-key derivation (src/agents/question_agent.py, _create_cache_key),
  including a full embedding of the MD5 digest (RFC 1321) that the Python
  hashlib call computes;
* the cache lookup and store paths (_check_cache, _store_cache) and the v1
  retry-on-busy write loop (src/analyze_projects_multi_agent.py);
* the analysis-output parser (_parse_analysis_output);
* the question evaluator (QuestionAgent.analyze) with its two phases,
  modelled over an explicit environment describing what the external LLM
  calls and the cache return;
* the parallel fan-out collector (run_parallel_question_analysis);
* the scoring aggregation and recommendation thresholds (SummaryAgent);
* the skip-freshness check (should_skip_project).

Python string methods used by the source (strip, upper, split, replace,
startswith, the in operator, join) are embedded as executable functions on
the character lists underlying Lean strings, with Python semantics.
-/

/-! ### Python string primitives -/

/-- Python str.strip() strips characters satisfying this predicate
(whitespace) from both ends. -/
def pySpace (c : Char) : Bool := c.isWhitespace

/-- Strip leading whitespace from a character list (left part of str.strip). -/
def lstripL (l : List Char) : List Char := l.dropWhile pySpace

/-- Strip trailing whitespace from a character list (right part of str.strip). -/
def rstripL (l : List Char) : List Char := (l.reverse.dropWhile pySpace).reverse

/-- Python str.strip() on a character list. -/
def stripL (l : List Char) : List Char := rstripL (lstripL l)

/-- Python str.strip(). -/
def pyStrip (s : String) : String := String.mk (stripL s.data)

/-- Python str.upper() (ASCII range, which is all the source feeds it). -/
def pyUpper (s : String) : String := String.mk (s.data.map Char.toUpper)

/-- Python str.startswith(p). -/
def pyStartswith (s p : String) : Bool := p.data.isPrefixOf s.data

/-- Occurrence of one character list inside another: the Python in operator. -/
def containsSubL (needle : List Char) : List Char → Bool
  | [] => needle.isEmpty
  | c :: cs => needle.isPrefixOf (c :: cs) || containsSubL needle cs

/-- Python substring test: needle in hay. -/
def pyIn (needle hay : String) : Bool := containsSubL needle.data hay.data

/-- Python str.split(sep) for a single-character separator; always returns at
least one (possibly empty) piece, like Python. -/
def splitCharL (sep : Char) : List Char → List (List Char)
  | [] => [[]]
  | c :: cs =>
    match splitCharL sep cs with
    | [] => [[]]
    | h :: t => if c = sep then [] :: h :: t else (c :: h) :: t

/-- Python s.split(sep) (single-character separator). -/
def pySplit (s : String) (sep : Char) : List String :=
  (splitCharL sep s.data).map String.mk

/-- Python str.replace(pat, rep), all occurrences, left to right,
non-overlapping; fuelled so it is structurally recursive (fuel is the length
of the subject, enough whenever the pattern is nonempty, which is how the
source calls it). -/
def replaceFuel (pat rep : List Char) : Nat → List Char → List Char
  | _, [] => []
  | 0, s => s
  | fuel + 1, c :: cs =>
    if pat.isPrefixOf (c :: cs) && !pat.isEmpty then
      rep ++ replaceFuel pat rep fuel ((c :: cs).drop pat.length)
    else
      c :: replaceFuel pat rep fuel cs

/-- Python str.replace(pat, rep). -/
def pyReplace (s pat rep : String) : String :=
  String.mk (replaceFuel pat.data rep.data s.data.length s.data)

/-- Python sep.join(pieces) for sep = a single newline. -/
def joinNl : List String → String
  | [] => ""
  | [s] => s
  | s :: t => s ++ "\n" ++ joinNl t

/-! ### UTF-8 encoding (Python str.encode()) -/

/-- UTF-8 bytes of one Unicode scalar value. -/
def utf8Char (n : Nat) : List Nat :=
  if n < 0x80 then [n]
  else if n < 0x800 then
    [0xC0 + n / 0x40, 0x80 + n % 0x40]
  else if n < 0x10000 then
    [0xE0 + n / 0x1000, 0x80 + n / 0x40 % 0x40, 0x80 + n % 0x40]
  else
    [0xF0 + n / 0x40000, 0x80 + n / 0x1000 % 0x40, 0x80 + n / 0x40 % 0x40, 0x80 + n % 0x40]

/-- Python str.encode(): the UTF-8 bytes of a string. -/
def utf8Bytes (s : String) : List Nat :=
  s.data.foldr (fun c acc => utf8Char c.toNat ++ acc) []

/-! ### MD5 (RFC 1321), as computed by hashlib.md5 in _create_cache_key -/

/-- Two to the thirty-second power, the word modulus of MD5. -/
def M32 : Nat := 4294967296

/-- Bitwise complement of a 32-bit word. -/
def not32 (x : Nat) : Nat := 4294967295 - x % M32

/-- Left-rotation of a 32-bit word by s bits (0 < s < 32). -/
def rotl32 (x s : Nat) : Nat := (x % M32) * 2 ^ s % M32 + x % M32 / 2 ^ (32 - s)

/-- The 64 MD5 sine-derived constants K[i] = floor(2^32 * abs(sin(i+1))). -/
def md5K : List Nat :=
  [0xd76aa478, 0xe8c7b756, 0x242070db, 0xc1bdceee, 0xf57c0faf, 0x4787c62a,
   0xa8304613, 0xfd469501, 0x698098d8, 0x8b44f7af, 0xffff5bb1, 0x895cd7be,
   0x6b901122, 0xfd987193, 0xa679438e, 0x49b40821, 0xf61e2562, 0xc040b340,
   0x265e5a51, 0xe9b6c7aa, 0xd62f105d, 0x02441453, 0xd8a1e681, 0xe7d3fbc8,
   0x21e1cde6, 0xc33707d6, 0xf4d50d87, 0x455a14ed, 0xa9e3e905, 0xfcefa3f8,
   0x676f02d9, 0x8d2a4c8a, 0xfffa3942, 0x8771f681, 0x6d9d6122, 0xfde5380c,
   0xa4beea44, 0x4bdecfa9, 0xf6bb4b60, 0xbebfbc70, 0x289b7ec6, 0xeaa127fa,
   0xd4ef3085, 0x04881d05, 0xd9d4d039, 0xe6db99e5, 0x1fa27cf8, 0xc4ac5665,
   0xf4292244, 0x432aff97, 0xab9423a7, 0xfc93a039, 0x655b59c3, 0x8f0ccc92,
   0xffeff47d, 0x85845dd1, 0x6fa87e4f, 0xfe2ce6e0, 0xa3014314, 0x4e0811a1,
   0xf7537e82, 0xbd3af235, 0x2ad7d2bb, 0xeb86d391]

/-- The MD5 per-round left-rotation amounts. -/
def md5S : List Nat :=
  [7, 12, 17, 22, 7, 12, 17, 22, 7, 12, 17, 22, 7, 12, 17, 22,
   5, 9, 14, 20, 5, 9, 14, 20, 5, 9, 14, 20, 5, 9, 14, 20,
   4, 11, 16, 23, 4, 11, 16, 23, 4, 11, 16, 23, 4, 11, 16, 23,
   6, 10, 15, 21, 6, 10, 15, 21, 6, 10, 15, 21, 6, 10, 15, 21]

/-- Little-endian byte decomposition of a number into k bytes. -/
def toBytesLE : Nat → Nat → List Nat
  | 0, _ => []
  | k + 1, n => n % 256 :: toBytesLE k (n / 256)

/-- MD5 padding: append 0x80, zero bytes to 56 mod 64, then the original bit
length as 8 little-endian bytes. -/
def md5Pad (msg : List Nat) : List Nat :=
  msg ++ 0x80 :: List.replicate ((55 + 64 - msg.length % 64) % 64) 0
      ++ toBytesLE 8 (msg.length * 8 % 2 ^ 64)

/-- Split a byte list into 64-byte chunks (fuelled structural recursion). -/
def chunks64Aux : Nat → List Nat → List (List Nat)
  | _, [] => []
  | 0, l => [l]
  | fuel + 1, l => l.take 64 :: chunks64Aux fuel (l.drop 64)

/-- The 64-byte chunks of a padded message. -/
def chunks64 (l : List Nat) : List (List Nat) := chunks64Aux l.length l

/-- A little-endian 32-bit word from a byte list. -/
def bytesToWordLE : List Nat → Nat
  | [] => 0
  | b :: t => b % 256 + 256 * bytesToWordLE t

/-- The sixteen message words M[0..15] of one 64-byte chunk. -/
def md5Words16 (chunk : List Nat) : List Nat :=
  (List.range 16).map fun i => bytesToWordLE ((chunk.drop (4 * i)).take 4)

/-- One of the 64 MD5 rounds, acting on the state (A, B, C, D). -/
def md5Round (m : List Nat) (st : Nat × Nat × Nat × Nat) (i : Nat) :
    Nat × Nat × Nat × Nat :=
  let a := st.1
  let b := st.2.1
  let c := st.2.2.1
  let d := st.2.2.2
  let fg : Nat × Nat :=
    if i < 16 then ((b.land c).lor ((not32 b).land d), i)
    else if i < 32 then ((d.land b).lor ((not32 d).land c), (5 * i + 1) % 16)
    else if i < 48 then ((b.xor c).xor d, (3 * i + 5) % 16)
    else (c.xor (b.lor (not32 d)), 7 * i % 16)
  let f := (fg.1 + a + md5K.getD i 0 + m.getD fg.2 0) % M32
  (d, (b + rotl32 f (md5S.getD i 0)) % M32, b, c)

/-- Process one 64-byte chunk: 64 rounds, then add into the running state. -/
def md5Chunk (st : Nat × Nat × Nat × Nat) (chunk : List Nat) :
    Nat × Nat × Nat × Nat :=
  let m := md5Words16 chunk
  let r := (List.range 64).foldl (md5Round m) st
  ((st.1 + r.1) % M32, (st.2.1 + r.2.1) % M32,
   (st.2.2.1 + r.2.2.1) % M32, (st.2.2.2 + r.2.2.2) % M32)

/-- The four 32-bit MD5 state words of a byte message. -/
def md5StateWords (msg : List Nat) : Nat × Nat × Nat × Nat :=
  (chunks64 (md5Pad msg)).foldl md5Chunk
    (0x67452301, 0xefcdab89, 0x98badcfe, 0x10325476)

/-- Lower-case hexadecimal digit. -/
def hexDigit (n : Nat) : Char :=
  if n < 10 then Char.ofNat (48 + n) else Char.ofNat (87 + n % 16)

/-- Two lower-case hex digits of a byte. -/
def byteHex (b : Nat) : List Char := [hexDigit (b / 16 % 16), hexDigit (b % 16)]

/-- hashlib md5(...).hexdigest(): 32 lower-case hex characters,
little-endian per state word. -/
def md5Hex (msg : List Nat) : String :=
  let w := md5StateWords msg
  String.mk (((toBytesLE 4 w.1 ++ toBytesLE 4 w.2.1 ++ toBytesLE 4 w.2.2.1
      ++ toBytesLE 4 w.2.2.2).map byteHex).flatten)

/-! ### Cache-key derivation (QuestionAgent._create_cache_key) -/

/-- The pre-hash string f-string of _create_cache_key:
operation, project name and question text joined by colons. -/
def cache_input (operation project_name question_text : String) : String :=
  operation ++ ":" ++ project_name ++ ":" ++ question_text

/-- QuestionAgent._create_cache_key: the MD5 hex digest of the UTF-8 bytes of
the colon-joined triple. -/
def create_cache_key (operation project_name question_text : String) : String :=
  md5Hex (utf8Bytes (cache_input operation project_name question_text))

/-! ### Result dictionaries

The Python code passes heterogeneous dicts between agents; a QResult models
such a dict, with a field set to none exactly when the corresponding key is
absent from the dict. -/

/-- A question-agent result dict; none models an absent key. -/
structure QResult where
  question_id : Option Int := none
  question : Option String := none
  analysis : Option String := none
  score : Option Int := none
  confidence : Option String := none
  success : Option Bool := none
  error : Option String := none
  cost : Option ℚ := none
  content : Option String := none
  research_data : Option String := none
  sources : Option (List String) := none
  cached : Option Bool := none
  web_search_used : Option Bool := none
deriving DecidableEq, Repr

/-! ### The six diagnostic questions (config/config.py DIAGNOSTIC_QUESTIONS)

Only the fields the orchestration core consumes are embedded (id, key,
question text); the description and search-focus fields are prompt text,
which the specification places out of the modelled core. -/

/-- One record of DIAGNOSTIC_QUESTIONS. -/
structure QuestionCfg where
  id : Int
  key : String
  question : String
deriving DecidableEq, Repr

/-- The fixed six-question configuration from config/config.py. -/
def DIAGNOSTIC_QUESTIONS : List QuestionCfg :=
  [⟨1, "gap_filler", "Gap-Filler?"⟩,
   ⟨2, "new_proof_points", "New Proof-Points?"⟩,
   ⟨3, "clear_story", "Clear Story?"⟩,
   ⟨4, "shared_audience_different_function", "Shared Audience, Different Function?"⟩,
   ⟨5, "low_friction_integration", "Low-Friction Integration?"⟩,
   ⟨6, "hands_on_support", "Hands-On Support?"⟩]

/-! ### Analysis-output parsing (QuestionAgent._parse_analysis_output) -/

/-- The parsed triple produced by _parse_analysis_output. -/
structure ParsedAnalysis where
  analysis : String
  score : Int
  confidence : String
deriving DecidableEq, Repr

/-- One iteration of the parsing loop of _parse_analysis_output: the state is
(score, confidence, analysis_lines) and line0 the current raw line. -/
def parseStep (st : Int × String × List String) (line0 : String) :
    Int × String × List String :=
  let line := pyStrip line0
  if pyStartswith (pyUpper line) "SCORE:" then
    let score_text := pyStrip (pyReplace line "SCORE:" "")
    let score :=
      if pyIn "+1" score_text || pyIn "SCORE: 1" score_text then (1 : Int)
      else if pyIn "-1" score_text || pyIn "SCORE: -1" score_text then -1
      else 0
    (score, st.2.1, st.2.2)
  else if pyStartswith (pyUpper line) "CONFIDENCE:" then
    let confidence_text := pyStrip (pyReplace line "CONFIDENCE:" "")
    let confidence :=
      if pyIn "HIGH" (pyUpper confidence_text) then "High"
      else if pyIn "LOW" (pyUpper confidence_text) then "Low"
      else "Medium"
    (st.1, confidence, st.2.2)
  else
    if !line.data.isEmpty && !pyStartswith (pyUpper line) "ANALYSIS:" then
      (st.1, st.2.1, st.2.2 ++ [line])
    else
      (st.1, st.2.1, st.2.2)

/-- The loop of _parse_analysis_output: fold over the split lines starting
from score 0, confidence "Medium" and an empty narrative accumulator. -/
def parse_state (analysis_content : String) : Int × String × List String :=
  (pySplit analysis_content '\n').foldl parseStep (0, "Medium", [])

/-- The narrative lines the loop accumulates for a given model response. -/
def narrative_lines (analysis_content : String) : List String :=
  (parse_state analysis_content).2.2

/-- QuestionAgent._parse_analysis_output: split into lines, run the parsing
loop, then rebuild the analysis text (which stays the raw content when no
narrative line was kept). -/
def parse_analysis_output (analysis_content : String) : ParsedAnalysis :=
  { analysis :=
      if (narrative_lines analysis_content).isEmpty then analysis_content
      else pyStrip (joinNl (narrative_lines analysis_content))
    score := (parse_state analysis_content).1
    confidence := (parse_state analysis_content).2.1 }

/-! ### Scoring thresholds and summary synthesis (agents/summary_agent.py) -/

/-- config/config.py SCORE_THRESHOLDS, strong_candidate entry. -/
def SCORE_THRESHOLDS_strong_candidate : Int := 4

/-- config/config.py SCORE_THRESHOLDS, mixed_fit entry. -/
def SCORE_THRESHOLDS_mixed_fit : Int := 0

/-- config/config.py RECOMMENDATIONS, strong_candidate entry. -/
def RECOMMENDATIONS_strong_candidate : String :=
  "Strong candidate; explore MoU/co-marketing"

/-- config/config.py RECOMMENDATIONS, mixed_fit entry. -/
def RECOMMENDATIONS_mixed_fit : String := "Mixed; negotiate scope"

/-- config/config.py RECOMMENDATIONS, decline entry. -/
def RECOMMENDATIONS_decline : String := "Decline or redesign the collaboration"

/-- SummaryAgent._determine_recommendation. -/
def determine_recommendation (total : Int) : String :=
  if total ≥ SCORE_THRESHOLDS_strong_candidate then RECOMMENDATIONS_strong_candidate
  else if total ≥ SCORE_THRESHOLDS_mixed_fit then RECOMMENDATIONS_mixed_fit
  else RECOMMENDATIONS_decline

/-- The total-score sum computed by SummaryAgent.generate_final_summary:
sum over q.get("score", 0). -/
def total_score (question_analyses : List QResult) : Int :=
  (question_analyses.map (fun q => q.score.getD 0)).sum

/-- The question_scores dict comprehension of generate_final_summary, as an
association list (a later pair shadows an earlier one with the same key,
like dict insertion). -/
def question_scores (question_analyses : List QResult) : List (String × Int) :=
  question_analyses.enum.map fun p =>
    ("Q" ++ toString (p.2.question_id.getD ((p.1 : Int) + 1)), p.2.score.getD 0)

/-- The final-summary dict returned by generate_final_summary. -/
structure FinalSummary where
  project_name : String
  total_score : Int
  recommendation : String
  summary : String
  question_scores : List (String × Int)
  success : Bool
  error : Option String := none
deriving DecidableEq, Repr

/-- Environment of one generate_final_summary call: either the synthesis LLM
call (and everything else inside the try block) succeeds with some text, or
an exception with message e is raised inside the try block. -/
inductive SynthOutcome where
  | ok (text : String)
  | exn (e : String)
deriving DecidableEq, Repr

/-- SummaryAgent.generate_final_summary: on success, the summary text with
score and recommendation; on any exception, the fallback dict rebuilt from
the same numeric sum, success false. -/
def generate_final_summary (project_name : String)
    (question_analyses : List QResult) (env : SynthOutcome) : FinalSummary :=
  match env with
  | .ok text =>
    { project_name := project_name
      total_score := total_score question_analyses
      recommendation := determine_recommendation (total_score question_analyses)
      summary := text
      question_scores := question_scores question_analyses
      success := true }
  | .exn e =>
    { project_name := project_name
      total_score := total_score question_analyses
      recommendation := determine_recommendation (total_score question_analyses)
      summary := "Summary generation failed: " ++ e ++
        ". Score based on individual analyses: " ++
        toString (total_score question_analyses) ++ "/6"
      question_scores := question_scores question_analyses
      success := false
      error := some e }

/-! ### Freshness skip check (analyze_projects_multi_agent_v2.should_skip_project) -/

/-- State of the final_summaries table for one project: none when no row
exists; some none when a row exists whose updated_at string does not parse
with datetime.fromisoformat; some (some t) when it parses to epoch second t.
dbError models the surrounding try failing (database unavailable). -/
structure FinalSummariesDb where
  row : Option (Option Int)
  dbError : Bool
deriving DecidableEq, Repr

/-- should_skip_project: false on force_refresh; false on database errors,
missing rows and unparseable timestamps; otherwise compares updated_at
against now minus 24 hours. -/
def should_skip_project (db : FinalSummariesDb) (now : Int)
    (force_refresh : Bool) : Bool :=
  if force_refresh then false
  else if db.dbError then false
  else
    match db.row with
    | none => false
    | some none => false
    | some (some updated_at) => decide (updated_at > now - 24 * 3600)

/-! ### Cache lookup (QuestionAgent._check_cache)

The SQLite row store of one cache table: a row per cache key (the key is the
PRIMARY KEY), carrying the stored result blob (the json round-trip of the
stored dict is modelled as the dict itself) and its created_at timestamp in
epoch seconds. A missing table is modelled as none. -/

/-- One row of a cache table. -/
structure CacheEntry where
  cache_key : String
  result_data : QResult
  created_at : Int
deriving DecidableEq, Repr

/-- The 24-hour freshness window of _check_cache, in seconds. -/
def freshness_window : Int := 24 * 3600

/-- QuestionAgent._check_cache: none when the table does not exist; otherwise
the first row whose key matches and whose created_at is newer than now minus
24 hours (the SQL predicate created_at > datetime(now, -24 hours)). -/
def check_cache (table : Option (List CacheEntry)) (now : Int)
    (key : String) : Option QResult :=
  match table with
  | none => none
  | some rows =>
    match rows.find? (fun e =>
        e.cache_key == key && decide (e.created_at > now - freshness_window)) with
    | some e => some e.result_data
    | none => none

/-! ### Cache writes and the retry-on-busy loop

The store is described by an environment mapping the zero-based attempt
number to what the underlying SQLite call does on that attempt. -/

/-- Behaviour of the underlying store on one write attempt. -/
inductive AttemptOutcome where
  | ok
  | busyLocked
  | opError
  | exn
deriving DecidableEq, Repr

/-- Observable outcome of a write path. -/
inductive StoreOutcome where
  | stored
  | dropped
  | raised
deriving DecidableEq, Repr

/-- PARALLEL_CONFIG retry_attempts and the literal max_retries = 3 of
analyze_question_with_agent. -/
def max_retries : Nat := 3

/-- The 0.1-second base delay of the v1 backoff (time.sleep(0.1 * (attempt + 1))). -/
def retry_backoff : ℚ := 1 / 10

/-- The retry loop of analyze_question_with_agent (v1 write path): up to
max_retries attempts; a busy/locked OperationalError sleeps
0.1 * (attempt + 1) seconds and retries while attempts remain, any other
OperationalError (or exhaustion) logs and breaks, and a non-OperationalError
exception propagates. Returns the outcome, the number of attempts made and
the list of sleep delays. -/
def v1_store_loop (env : Nat → AttemptOutcome) :
    Nat → Nat → List ℚ → StoreOutcome × Nat × List ℚ
  | 0, attempt, sleeps => (.dropped, attempt, sleeps)
  | fuel + 1, attempt, sleeps =>
    match env attempt with
    | .ok => (.stored, attempt + 1, sleeps)
    | .busyLocked =>
      if attempt < max_retries - 1 then
        v1_store_loop env fuel (attempt + 1)
          (sleeps ++ [retry_backoff * ((attempt : ℚ) + 1)])
      else (.dropped, attempt + 1, sleeps)
    | .opError => (.dropped, attempt + 1, sleeps)
    | .exn => (.raised, attempt + 1, sleeps)

/-- The v1 cache write: the retry loop entered with max_retries fuel at
attempt 0. -/
def v1_store (env : Nat → AttemptOutcome) : StoreOutcome × Nat × List ℚ :=
  v1_store_loop env max_retries 0 []

/-- QuestionAgent._store_cache: a single attempt inside a broad
try/except that logs and drops on any exception; there is no retry and no
propagation. Returns the outcome and the number of attempts made. -/
def store_cache (env : Nat → AttemptOutcome) : StoreOutcome × Nat :=
  match env 0 with
  | .ok => (.stored, 1)
  | .busyLocked => (.dropped, 1)
  | .opError => (.dropped, 1)
  | .exn => (.dropped, 1)

/-! ### The question evaluator (QuestionAgent.analyze)

The two LLM-backed phases are modelled over explicit environments describing
what the cache and the external calls do for this question:

* ResearchEnv: the research phase consults its cache (hitOk and hitFail are
  the two dict shapes _store_cache ever persists for research: a success
  dict or a cached failure dict); on a miss the external call either
  succeeds (fresh), raises an exception that the except block inside
  _conduct_question_research catches (caught), or an exception escapes the
  research step into the outer handler of analyze (exn).
* AnalysisEnv: the analysis phase hits its cache (only success dicts are
  ever stored for analysis), or the reasoning call returns raw text that
  _parse_analysis_output parses (fresh), or an exception is caught by the
  except block inside _conduct_question_analysis (caught), or an exception
  escapes into the outer handler of analyze (exn). -/

/-- Environment of the research phase for one question. -/
inductive ResearchEnv where
  | hitOk (content : String) (cost : ℚ) (web : Bool)
  | hitFail (content : String) (cost : ℚ) (error : String)
  | fresh (content : String) (cost : ℚ) (web : Bool)
  | caught (e : String)
  | exn (e : String)
deriving DecidableEq, Repr

/-- Environment of the analysis phase for one question. -/
inductive AnalysisEnv where
  | hit (qid : Int) (question analysisText : String) (score : Int)
      (confidence : String) (cost : ℚ)
  | fresh (raw : String) (cost : ℚ)
  | caught (e : String)
  | exn (e : String)
deriving DecidableEq, Repr

/-- QuestionAgent._conduct_question_research: the result dict of the research
phase, or Except.error when an exception escapes this step. -/
def conduct_question_research (cfg : QuestionCfg) (renv : ResearchEnv) :
    Except String QResult :=
  match renv with
  | .hitOk content cost web =>
    .ok { success := some true, content := some content, cost := some cost,
          web_search_used := some web }
  | .hitFail content cost err =>
    .ok { success := some false, content := some content, cost := some cost,
          error := some err }
  | .fresh content cost web =>
    .ok { success := some true, content := some content, cost := some cost,
          web_search_used := some web }
  | .caught e =>
    .ok { success := some false,
          content := some ("Research failed for question: " ++ cfg.question),
          cost := some 0, error := some ("Research failed: " ++ e) }
  | .exn e => .error e

/-- QuestionAgent._conduct_question_analysis: the result dict of the analysis
phase, or Except.error when an exception escapes this step. -/
def conduct_question_analysis (cfg : QuestionCfg) (aenv : AnalysisEnv) :
    Except String QResult :=
  match aenv with
  | .hit qid question analysisText score confidence cost =>
    .ok { question_id := some qid, question := some question,
          analysis := some analysisText, score := some score,
          confidence := some confidence, success := some true,
          cost := some cost }
  | .fresh raw cost =>
    let p := parse_analysis_output raw
    .ok { question_id := some cfg.id, question := some cfg.question,
          analysis := some p.analysis, score := some p.score,
          confidence := some p.confidence, success := some true,
          cost := some cost }
  | .caught e =>
    .ok { question_id := some cfg.id, question := some cfg.question,
          analysis := some ("Analysis failed: Analysis failed for Q" ++
            toString cfg.id ++ ": " ++ e),
          score := some 0, confidence := some "Error", success := some false,
          error := some ("Analysis failed for Q" ++ toString cfg.id ++ ": " ++ e),
          cost := some 0 }
  | .exn e => .error e

/-- The dict built by the outer except block of QuestionAgent.analyze. -/
def analyze_outer_handler (cfg : QuestionCfg) (e : String) : QResult :=
  { question_id := some cfg.id, question := some cfg.question,
    analysis := some ("Analysis failed: Question " ++ toString cfg.id ++
      " analysis failed: " ++ e),
    score := some 0, confidence := some "Error", success := some false,
    error := some ("Question " ++ toString cfg.id ++ " analysis failed: " ++ e),
    cost := some 0 }

/-- QuestionAgent.analyze: research phase, early return of the research dict
when its success flag is false, then analysis phase, then the combined cost
is written into the analysis dict; any exception escaping either phase is
caught by the outer handler. -/
def analyze (cfg : QuestionCfg) (renv : ResearchEnv) (aenv : AnalysisEnv) :
    QResult :=
  match conduct_question_research cfg renv with
  | .error e => analyze_outer_handler cfg e
  | .ok research_result =>
    if research_result.success.getD false then
      match conduct_question_analysis cfg aenv with
      | .error e => analyze_outer_handler cfg e
      | .ok analysis_result =>
        { analysis_result with
          cost := some (research_result.cost.getD 0 + analysis_result.cost.getD 0) }
    else research_result

/-! ### The parallel fan-out (run_parallel_question_analysis) -/

/-- What happens to one submitted future at the collection point: its
analyze call runs to completion (run), future.result raises a
TimeoutError (timeout), or it raises some other exception (raised). -/
inductive TaskEnv where
  | run (renv : ResearchEnv) (aenv : AnalysisEnv)
  | timeout
  | raised (e : String)
deriving DecidableEq, Repr

/-- The synthetic result appended on a per-question timeout. -/
def timeout_result (cfg : QuestionCfg) : QResult :=
  { question_id := some cfg.id, research_data := some "Analysis timed out",
    sources := some [],
    analysis := some ("Analysis timed out for Q" ++ toString cfg.id),
    score := some 0, confidence := some "Low", error := some "Timeout",
    cached := some false }

/-- The synthetic result appended when a future raises an exception. -/
def error_result (cfg : QuestionCfg) (e : String) : QResult :=
  { question_id := some cfg.id,
    research_data := some ("Analysis failed: " ++ e), sources := some [],
    analysis := some ("Analysis failed for Q" ++ toString cfg.id ++ ": " ++ e),
    score := some 0, confidence := some "Low", error := some e,
    cached := some false }

/-- The result collected for one task. -/
def run_task : QuestionCfg × TaskEnv → QResult
  | (cfg, .run renv aenv) => analyze cfg renv aenv
  | (cfg, .timeout) => timeout_result cfg
  | (cfg, .raised e) => error_result cfg e

/-- The sort key of question_results.sort: x.get("question_id", 0). -/
def sort_key (r : QResult) : Int := r.question_id.getD 0

/-- The order relation of the final sort of run_parallel_question_analysis. -/
def fanout_order (a b : QResult) : Prop := sort_key a ≤ sort_key b

instance : DecidableRel fanout_order :=
  fun a b => inferInstanceAs (Decidable (sort_key a ≤ sort_key b))

instance : IsTotal QResult fanout_order :=
  ⟨fun a b => le_total (sort_key a) (sort_key b)⟩

instance : IsTrans QResult fanout_order := ⟨fun _ _ _ => le_trans⟩

/-- run_parallel_question_analysis: the input list is the six submitted
questions in completion order, each with its task environment; every task
contributes exactly one collected result, and the collected list is sorted
stably by question id with default 0 (Python list.sort; insertion sort with
this total preorder is such a stable sort). -/
def run_parallel_question_analysis (tasks : List (QuestionCfg × TaskEnv)) :
    List QResult :=
  List.insertionSort fanout_order (tasks.map run_task)

/-! ## Claims -/

/-- The boundary score list 1, 1, 1, 1, 0, 0 from the specification. -/
def boundary_scores : List QResult :=
  [1, 1, 1, 1, 0, 0].map fun n => { score := some n }

/-- Claim C1: the scoring aggregation computes the total as the sum of the
per-question scores and maps it through the fixed thresholds: a total of at
least 4 gives the strong-candidate tier, a total in [0, 4) the mixed-fit
tier, and a negative total the decline tier; the scores 1, 1, 1, 1, 0, 0
give total 4 and the strong-candidate tier (inclusive lower bound); total
and tier are invariant under permutation of the input list. -/
theorem C1_scoring_aggregation :
    (∀ (p : String) (qs : List QResult) (env : SynthOutcome),
      (generate_final_summary p qs env).total_score = total_score qs ∧
      (generate_final_summary p qs env).recommendation =
        determine_recommendation (total_score qs)) ∧
    (∀ s : Int, 4 ≤ s →
      determine_recommendation s = RECOMMENDATIONS_strong_candidate) ∧
    (∀ s : Int, 0 ≤ s → s < 4 →
      determine_recommendation s = RECOMMENDATIONS_mixed_fit) ∧
    (∀ s : Int, s < 0 → determine_recommendation s = RECOMMENDATIONS_decline) ∧
    (total_score boundary_scores = 4 ∧
      determine_recommendation (total_score boundary_scores) =
        RECOMMENDATIONS_strong_candidate) ∧
    (∀ qs qs' : List QResult, qs.Perm qs' →
      total_score qs = total_score qs' ∧
      determine_recommendation (total_score qs) =
        determine_recommendation (total_score qs')) := by
  refine ⟨?_, ?_, ?_, ?_, ?_, ?_⟩
  · intro p qs env
    cases env <;> exact ⟨rfl, rfl⟩
  · intro s hs
    simp only [determine_recommendation, SCORE_THRESHOLDS_strong_candidate]
    rw [if_pos hs]
  · intro s h0 h4
    simp only [determine_recommendation, SCORE_THRESHOLDS_strong_candidate,
      SCORE_THRESHOLDS_mixed_fit]
    rw [if_neg (by omega), if_pos (by omega)]
  · intro s hs
    simp only [determine_recommendation, SCORE_THRESHOLDS_strong_candidate,
      SCORE_THRESHOLDS_mixed_fit]
    rw [if_neg (by omega), if_neg (by omega)]
  · exact ⟨by decide, by decide⟩
  · intro qs qs' h
    have hsum : total_score qs = total_score qs' :=
      List.Perm.sum_eq (h.map fun q => q.score.getD 0)
    exact ⟨hsum, by rw [hsum]⟩

/-- Witness for claim C1 at concrete inputs. -/
theorem C1_scoring_aggregation_witness :
    determine_recommendation 5 = RECOMMENDATIONS_strong_candidate ∧
    determine_recommendation 2 = RECOMMENDATIONS_mixed_fit ∧
    determine_recommendation (-3) = RECOMMENDATIONS_decline ∧
    total_score boundary_scores = total_score boundary_scores.reverse :=
  ⟨C1_scoring_aggregation.2.1 5 (by norm_num),
   C1_scoring_aggregation.2.2.1 2 (by norm_num) (by norm_num),
   C1_scoring_aggregation.2.2.2.1 (-3) (by norm_num),
   (C1_scoring_aggregation.2.2.2.2.2 boundary_scores boundary_scores.reverse
     (List.reverse_perm boundary_scores).symm).1⟩

/-- Claim C9: when summary synthesis raises, generate_final_summary still
returns the same numeric total and recommendation the success path would
produce, with success false and a fallback narrative built from the
numeric score. -/
theorem C9_summary_synthesis_fallback :
    ∀ (p : String) (qs : List QResult) (e t : String),
      (generate_final_summary p qs (.exn e)).total_score = total_score qs ∧
      (generate_final_summary p qs (.exn e)).recommendation =
        determine_recommendation (total_score qs) ∧
      (generate_final_summary p qs (.exn e)).total_score =
        (generate_final_summary p qs (.ok t)).total_score ∧
      (generate_final_summary p qs (.exn e)).recommendation =
        (generate_final_summary p qs (.ok t)).recommendation ∧
      (generate_final_summary p qs (.exn e)).success = false ∧
      (generate_final_summary p qs (.exn e)).error = some e ∧
      (generate_final_summary p qs (.exn e)).summary =
        "Summary generation failed: " ++ e ++
          ". Score based on individual analyses: " ++
          toString (total_score qs) ++ "/6" :=
  fun _ _ _ _ => ⟨rfl, rfl, rfl, rfl, rfl, rfl, rfl⟩

/-- Witness for claim C9 at a concrete input. -/
theorem C9_summary_synthesis_fallback_witness :
    (generate_final_summary "Acme" boundary_scores (.exn "boom")).total_score = 4 ∧
    (generate_final_summary "Acme" boundary_scores (.exn "boom")).success = false :=
  ⟨(C9_summary_synthesis_fallback "Acme" boundary_scores "boom" "t").1,
   (C9_summary_synthesis_fallback "Acme" boundary_scores "boom" "t").2.2.2.2.1⟩

/-- Claim C8: should_skip_project is true exactly when no forced refresh was
requested, the summary table is readable, a persisted summary row exists,
its timestamp parses, and it is less than 24 hours old; forced refresh,
missing rows and unparseable timestamps all give false. -/
theorem C8_skip_freshness :
    ∀ (db : FinalSummariesDb) (now : Int) (force_refresh : Bool),
      should_skip_project db now force_refresh = true ↔
        (force_refresh = false ∧ db.dbError = false ∧
          ∃ t, db.row = some (some t) ∧ now - t < 24 * 3600) := by
  intro db now fr
  obtain ⟨row, dbe⟩ := db
  constructor
  · intro h
    cases fr with
    | true => simp [should_skip_project] at h
    | false =>
      cases dbe with
      | true => simp [should_skip_project] at h
      | false =>
        rcases row with _ | (_ | t)
        · simp [should_skip_project] at h
        · simp [should_skip_project] at h
        · refine ⟨rfl, rfl, t, rfl, ?_⟩
          simp [should_skip_project] at h
          omega
  · rintro ⟨hfr, hdb, t, hrow, hf⟩
    subst hfr
    simp only at hdb hrow
    subst hdb
    subst hrow
    simp [should_skip_project]
    omega

/-- Witness for claim C8 at a concrete input. -/
theorem C8_skip_freshness_witness :
    should_skip_project ⟨some (some 1000), false⟩ 1000 false = true :=
  (C8_skip_freshness ⟨some (some 1000), false⟩ 1000 false).mpr
    ⟨rfl, rfl, 1000, rfl, by norm_num⟩

/-- Claim C4: a cache lookup returns a stored value only for a matching key
written within the 24-hour window; an entry written 23 hours ago is a hit,
one written 25 hours ago is a miss, and a missing table is a miss rather
than an error. -/
theorem C4_cache_lookup_freshness :
    (∀ (now : Int) (key : String), check_cache none now key = none) ∧
    (∀ (rows : List CacheEntry) (now : Int) (key : String) (r : QResult),
      check_cache (some rows) now key = some r →
      ∃ e ∈ rows, e.cache_key = key ∧ now - e.created_at < freshness_window ∧
        e.result_data = r) ∧
    (∀ (now : Int) (key : String) (r : QResult),
      check_cache (some [⟨key, r, now - 23 * 3600⟩]) now key = some r) ∧
    (∀ (now : Int) (key : String) (r : QResult),
      check_cache (some [⟨key, r, now - 25 * 3600⟩]) now key = none) := by
  refine ⟨fun _ _ => rfl, ?_, ?_, ?_⟩
  · intro rows now key r h
    simp only [check_cache] at h
    split at h
    next e hf =>
      have hp := List.find?_some hf
      simp only [Bool.and_eq_true, beq_iff_eq, decide_eq_true_eq] at hp
      cases h
      exact ⟨e, List.mem_of_find?_eq_some hf, hp.1, by omega, rfl⟩
    next hf => cases h
  · intro now key r
    have h1 : (82800 : Int) < freshness_window := by
      norm_num [freshness_window]
    simp [check_cache, List.find?_cons, h1]
  · intro now key r
    have h1 : ¬ (90000 : Int) < freshness_window := by
      norm_num [freshness_window]
    simp [check_cache, List.find?_cons, h1]

/-- Witness for claim C4 at concrete inputs. -/
theorem C4_cache_lookup_freshness_witness :
    check_cache none 0 "k" = none ∧
    check_cache (some [⟨"k", {}, 100000 - 23 * 3600⟩]) 100000 "k" = some {} ∧
    check_cache (some [⟨"k", {}, 100000 - 25 * 3600⟩]) 100000 "k" = none :=
  ⟨C4_cache_lookup_freshness.1 0 "k",
   C4_cache_lookup_freshness.2.2.1 100000 "k" {},
   C4_cache_lookup_freshness.2.2.2 100000 "k" {}⟩

/-- A store that is busy on the first attempt and available afterwards. -/
def busy_once_env : Nat → AttemptOutcome :=
  fun k => if k = 0 then .busyLocked else .ok

/-- Claim C5 counterexample: the QuestionAgent._store_cache write path does
not retry. On a store that is busy exactly once it makes a single attempt
and drops the write, although a second attempt would have succeeded — the
v1 write path stores on its second attempt after one 0.1-second backoff. -/
theorem C5_counterexample :
    store_cache busy_once_env = (.dropped, 1) ∧
    v1_store busy_once_env = (.stored, 2, [retry_backoff]) := by
  constructor
  · rfl
  · simp [v1_store, v1_store_loop, busy_once_env, max_retries]

/-- Claim C5 amended: only the v1 write path (analyze_question_with_agent)
implements the retry-on-busy policy — up to 3 attempts with sleeps of
0.1 times the one-based attempt number between them, then log and drop
without propagating; QuestionAgent._store_cache makes exactly one attempt
and on any storage error (busy included) logs and drops the write without
propagating and without retrying. -/
theorem C5_amended :
    (∀ env : Nat → AttemptOutcome,
      env 0 = .busyLocked → env 1 = .busyLocked → env 2 = .busyLocked →
      v1_store env = (.dropped, 3, [retry_backoff, retry_backoff * 2])) ∧
    (∀ env : Nat → AttemptOutcome, env 0 = .ok →
      v1_store env = (.stored, 1, [])) ∧
    (∀ env : Nat → AttemptOutcome, env 0 = .busyLocked → env 1 = .ok →
      v1_store env = (.stored, 2, [retry_backoff])) ∧
    (∀ env : Nat → AttemptOutcome,
      env 0 = .busyLocked → env 1 = .busyLocked → env 2 = .ok →
      v1_store env = (.stored, 3, [retry_backoff, retry_backoff * 2])) ∧
    (∀ env : Nat → AttemptOutcome,
      (store_cache env).2 = 1 ∧ (store_cache env).1 ≠ .raised ∧
      ((store_cache env).1 = .stored ↔ env 0 = .ok)) := by
  refine ⟨?_, ?_, ?_, ?_, ?_⟩
  · intro env h0 h1 h2
    simp [v1_store, v1_store_loop, h0, h1, h2, max_retries]
    norm_num
  · intro env h0
    simp [v1_store, v1_store_loop, h0, max_retries]
  · intro env h0 h1
    simp [v1_store, v1_store_loop, h0, h1, max_retries]
  · intro env h0 h1 h2
    simp [v1_store, v1_store_loop, h0, h1, h2, max_retries]
    norm_num
  · intro env
    cases h : env 0 <;> simp [store_cache, h]

/-- Witness for claim C5 at a concrete environment. -/
theorem C5_amended_witness :
    v1_store busy_once_env = (.stored, 2, [retry_backoff]) ∧
    (store_cache busy_once_env).2 = 1 :=
  ⟨C5_amended.2.2.1 busy_once_env rfl rfl,
   (C5_amended.2.2.2.2 busy_once_env).1⟩

/-- Claim C10: when the research phase returns a caught failure (success
false), analyze returns that research dict directly — success, content,
cost and error keys present, and no question_id, score or confidence key —
both for a fresh caught failure and for a cached failure dict. -/
theorem C10_research_failure_passthrough :
    ∀ (cfg : QuestionCfg) (e : String) (aenv : AnalysisEnv),
      (analyze cfg (.caught e) aenv =
        { success := some false,
          content := some ("Research failed for question: " ++ cfg.question),
          cost := some 0,
          error := some ("Research failed: " ++ e) } ∧
       (analyze cfg (.caught e) aenv).question_id = none ∧
       (analyze cfg (.caught e) aenv).score = none ∧
       (analyze cfg (.caught e) aenv).confidence = none) ∧
      (∀ (content : String) (cost : ℚ) (err : String),
        analyze cfg (.hitFail content cost err) aenv =
          { success := some false, content := some content,
            cost := some cost, error := some err }) :=
  fun _ _ _ => ⟨⟨rfl, rfl, rfl, rfl⟩, fun _ _ _ => rfl⟩

/-- Witness for claim C10 at a concrete input. -/
theorem C10_research_failure_passthrough_witness :
    (analyze ⟨1, "gap_filler", "Gap-Filler?"⟩ (.caught "boom") (.fresh "x" 0)).score
      = none :=
  (C10_research_failure_passthrough ⟨1, "gap_filler", "Gap-Filler?"⟩ "boom"
    (.fresh "x" 0)).1.2.2.1

/-- Claim C6 counterexample: an exception raised during the research phase is
caught at the research boundary, not the evaluator boundary, and analyze then
returns the research-failure dict, which does not carry score 0 and
confidence "Error" — those keys are absent altogether. -/
theorem C6_counterexample :
    ¬ ((analyze ⟨1, "gap_filler", "Gap-Filler?"⟩ (.caught "connection reset")
          (.fresh "SCORE: 0" 0)).score = some 0 ∧
       (analyze ⟨1, "gap_filler", "Gap-Filler?"⟩ (.caught "connection reset")
          (.fresh "SCORE: 0" 0)).confidence = some "Error") := by
  intro h
  cases h.1

/-- Claim C6 amended: analyze never propagates an exception (it is a total
function of its environment); an exception escaping either phase into the
outer handler, or caught inside the analysis phase, yields score 0,
confidence "Error", success false and an error message; but an exception
raised during the research phase is caught at the research boundary and
yields a success-false dict with an error message and no score or
confidence key at all. -/
theorem C6_amended :
    ∀ (cfg : QuestionCfg) (e : String),
      (∀ aenv, analyze cfg (.exn e) aenv = analyze_outer_handler cfg e) ∧
      (∀ (rc : String) (rcost : ℚ) (w : Bool),
        analyze cfg (.fresh rc rcost w) (.exn e) = analyze_outer_handler cfg e ∧
        analyze cfg (.hitOk rc rcost w) (.exn e) = analyze_outer_handler cfg e ∧
        ((analyze cfg (.fresh rc rcost w) (.caught e)).score = some 0 ∧
         (analyze cfg (.fresh rc rcost w) (.caught e)).confidence = some "Error" ∧
         (analyze cfg (.fresh rc rcost w) (.caught e)).success = some false ∧
         (analyze cfg (.fresh rc rcost w) (.caught e)).error =
           some ("Analysis failed for Q" ++ toString cfg.id ++ ": " ++ e)) ∧
        ((analyze cfg (.hitOk rc rcost w) (.caught e)).score = some 0 ∧
         (analyze cfg (.hitOk rc rcost w) (.caught e)).confidence = some "Error" ∧
         (analyze cfg (.hitOk rc rcost w) (.caught e)).success = some false)) ∧
      ((analyze_outer_handler cfg e).score = some 0 ∧
       (analyze_outer_handler cfg e).confidence = some "Error" ∧
       (analyze_outer_handler cfg e).success = some false ∧
       (analyze_outer_handler cfg e).error =
         some ("Question " ++ toString cfg.id ++ " analysis failed: " ++ e)) ∧
      (∀ aenv,
        (analyze cfg (.caught e) aenv).success = some false ∧
        (analyze cfg (.caught e) aenv).error = some ("Research failed: " ++ e) ∧
        (analyze cfg (.caught e) aenv).score = none ∧
        (analyze cfg (.caught e) aenv).confidence = none) :=
  fun _ _ =>
    ⟨fun _ => rfl,
     fun _ _ _ =>
       ⟨rfl, rfl, ⟨rfl, rfl, rfl, rfl⟩, ⟨rfl, rfl, rfl⟩⟩,
     ⟨rfl, rfl, rfl, rfl⟩,
     fun _ => ⟨rfl, rfl, rfl, rfl⟩⟩

/-- Witness for claim C6 at a concrete input. -/
theorem C6_amended_witness :
    analyze ⟨2, "new_proof_points", "New Proof-Points?"⟩ (.exn "boom")
        (.fresh "x" 0) =
      analyze_outer_handler ⟨2, "new_proof_points", "New Proof-Points?"⟩ "boom" :=
  (C6_amended ⟨2, "new_proof_points", "New Proof-Points?"⟩ "boom").1 (.fresh "x" 0)

/-- A fully successful task environment used for claim C3 instances. -/
def c3_env_ok : TaskEnv :=
  .run (.fresh "question research" 0 true)
    (.fresh "Good partner fit.\nSCORE: +1\nCONFIDENCE: High" 0)

/-- The six questions in submission order, question 1 suffering a caught
research failure and the other five succeeding. -/
def c3_tasks_research_failure : List (QuestionCfg × TaskEnv) :=
  DIAGNOSTIC_QUESTIONS.map fun cfg =>
    (cfg, if cfg.id = 1 then .run (.caught "connection error") (.fresh "x" 0)
      else c3_env_ok)

/-- Claim C3 counterexample: when one question has a caught research failure,
the fan-out still returns six entries, but the failed entry carries no
question id at all (and is sorted first under the default key 0), so the
returned list is not one result per question id 1 through 6. -/
theorem C3_counterexample :
    (run_parallel_question_analysis c3_tasks_research_failure).length = 6 ∧
    (run_parallel_question_analysis c3_tasks_research_failure).map
        (fun r => r.question_id) ≠
      [some 1, some 2, some 3, some 4, some 5, some 6] ∧
    (run_parallel_question_analysis c3_tasks_research_failure).map
        (fun r => r.question_id) =
      [none, some 2, some 3, some 4, some 5, some 6] := by
  decide

/-- Claim C3 amended: for every completion order of the six submitted
questions and any task environments, the fan-out returns exactly six
results sorted by question id (default 0); when every task yields a result
carrying its own question id — that is, no caught research failure and no
cached analysis dict bearing a foreign id — the ids are exactly
1, 2, 3, 4, 5, 6 in order; and a collected result lacks a question id
exactly when its research phase ended in a caught failure, fresh or
cached. -/
theorem C3_amended :
    ∀ tasks : List (QuestionCfg × TaskEnv),
      (tasks.map Prod.fst).Perm DIAGNOSTIC_QUESTIONS →
      (run_parallel_question_analysis tasks).length = 6 ∧
      (run_parallel_question_analysis tasks).Pairwise fanout_order ∧
      ((∀ p ∈ tasks, (run_task p).question_id = some p.1.id) →
        (run_parallel_question_analysis tasks).map (fun r => r.question_id) =
          [some 1, some 2, some 3, some 4, some 5, some 6]) ∧
      (∀ (cfg : QuestionCfg) (renv : ResearchEnv) (aenv : AnalysisEnv),
        (run_task (cfg, .run renv aenv)).question_id = none ↔
          ((∃ e, renv = .caught e) ∨ ∃ c q er, renv = .hitFail c q er)) := by
  intro tasks hperm
  have hperm_out :
      (run_parallel_question_analysis tasks).Perm (tasks.map run_task) :=
    List.perm_insertionSort fanout_order _
  refine ⟨?_, ?_, ?_, ?_⟩
  · have h6 : tasks.length = 6 := by
      have := hperm.length_eq
      simpa [DIAGNOSTIC_QUESTIONS] using this
    rw [hperm_out.length_eq, List.length_map, h6]
  · exact List.sorted_insertionSort fanout_order _
  · intro hids
    have hmap_ids : (tasks.map run_task).map (fun r => r.question_id)
        = (tasks.map Prod.fst).map (fun c => some c.id) := by
      rw [List.map_map, List.map_map]
      exact List.map_congr_left hids
    have hperm_ids :
        ((run_parallel_question_analysis tasks).map (fun r => r.question_id)).Perm
          [some (1 : Int), some 2, some 3, some 4, some 5, some 6] := by
      have h1 := hperm_out.map fun r : QResult => r.question_id
      rw [hmap_ids] at h1
      have h2 := hperm.map fun c : QuestionCfg => some c.id
      have h3 : DIAGNOSTIC_QUESTIONS.map (fun c : QuestionCfg => some c.id)
          = [some (1 : Int), some 2, some 3, some 4, some 5, some 6] := rfl
      rw [h3] at h2
      exact h1.trans h2
    have hsome : ∀ r ∈ run_parallel_question_analysis tasks,
        r.question_id = some (sort_key r) := by
      intro r hr
      have hmem : r.question_id ∈
          [some (1 : Int), some 2, some 3, some 4, some 5, some 6] :=
        hperm_ids.subset (List.mem_map_of_mem (fun r => r.question_id) hr)
      simp only [List.mem_cons, List.not_mem_nil, or_false] at hmem
      rcases hmem with h | h | h | h | h | h <;> simp [sort_key, h]
    have hkeys_sorted :
        List.Sorted (· ≤ ·) ((run_parallel_question_analysis tasks).map sort_key) :=
      List.Pairwise.map sort_key (fun _ _ h => h)
        (List.sorted_insertionSort fanout_order _)
    have hkeys_perm :
        ((run_parallel_question_analysis tasks).map sort_key).Perm
          [(1 : Int), 2, 3, 4, 5, 6] := by
      have hcomp : (run_parallel_question_analysis tasks).map sort_key
          = ((run_parallel_question_analysis tasks).map
              (fun r => r.question_id)).map (fun o => o.getD 0) := by
        rw [List.map_map]
        rfl
      rw [hcomp]
      have := hperm_ids.map fun o : Option Int => o.getD 0
      simpa using this
    have hkeys_eq : (run_parallel_question_analysis tasks).map sort_key
        = [(1 : Int), 2, 3, 4, 5, 6] :=
      List.eq_of_perm_of_sorted hkeys_perm hkeys_sorted (by decide)
    have hfinal : (run_parallel_question_analysis tasks).map (fun r => r.question_id)
        = ((run_parallel_question_analysis tasks).map sort_key).map some := by
      rw [List.map_map]
      exact List.map_congr_left fun r hr => hsome r hr
    rw [hfinal, hkeys_eq]
    rfl
  · intro cfg renv aenv
    cases renv <;> cases aenv <;>
      simp [run_task, analyze, conduct_question_research,
        conduct_question_analysis, analyze_outer_handler]

/-- The six questions submitted in reversed completion order with fully
successful environments, exercising order independence for claim C3. -/
def c3_tasks_all_ok : List (QuestionCfg × TaskEnv) :=
  (DIAGNOSTIC_QUESTIONS.map fun cfg => (cfg, c3_env_ok)).reverse

/-- Witness for claim C3 at a concrete reversed completion order. -/
theorem C3_amended_witness :
    (run_parallel_question_analysis c3_tasks_all_ok).length = 6 ∧
    (run_parallel_question_analysis c3_tasks_all_ok).map (fun r => r.question_id)
      = [some 1, some 2, some 3, some 4, some 5, some 6] :=
  ⟨(C3_amended c3_tasks_all_ok (by decide)).1,
   (C3_amended c3_tasks_all_ok (by decide)).2.2.1 (by decide)⟩

/-- Claim C7 counterexample: a response whose narrative parses to empty keeps
the full raw response as the analysis and keeps the parsed confidence — here
"High", not a forced "Low", and the raw copy is not truncated. -/
theorem C7_counterexample :
    narrative_lines "SCORE: +1\nCONFIDENCE: High" = [] ∧
    (parse_analysis_output "SCORE: +1\nCONFIDENCE: High").confidence = "High" ∧
    "High" ≠ "Low" ∧
    (parse_analysis_output "SCORE: +1\nCONFIDENCE: High").analysis
      = "SCORE: +1\nCONFIDENCE: High" := by
  decide

/-- Dropping a leading run of a predicate cannot remove a final element that
fails the predicate. -/
theorem dropWhile_append_singleton {p : Char → Bool} {c : Char}
    (hc : p c = false) :
    ∀ l : List Char, List.dropWhile p (l ++ [c]) = List.dropWhile p l ++ [c] := by
  intro l
  induction l with
  | nil => simp [List.dropWhile_cons, hc]
  | cons a t ih =>
    cases ha : p a
    · simp [List.dropWhile_cons, ha]
    · simp [List.dropWhile_cons, ha, ih]

/-- Right-stripping keeps a non-whitespace head character. -/
theorem rstripL_cons_of_not_space {c : Char} (hc : pySpace c = false)
    (t : List Char) : rstripL (c :: t) = c :: rstripL t := by
  unfold rstripL
  rw [List.reverse_cons, dropWhile_append_singleton hc, List.reverse_append]
  rfl

/-- A stripped character list is empty or starts with a non-whitespace
character. -/
theorem stripL_shape : ∀ m : List Char,
    stripL m = [] ∨ ∃ x xs, stripL m = x :: xs ∧ pySpace x = false := by
  intro m
  induction m with
  | nil => exact Or.inl rfl
  | cons c t ih =>
    cases hc : pySpace c
    · right
      have h1 : lstripL (c :: t) = c :: t := by
        simp [lstripL, List.dropWhile_cons, hc]
      refine ⟨c, rstripL t, ?_, hc⟩
      unfold stripL
      rw [h1, rstripL_cons_of_not_space hc t]
    · have heq : stripL (c :: t) = stripL t := by
        unfold stripL lstripL
        simp [List.dropWhile_cons, hc]
      rw [heq]
      exact ih

/-- One parsing step only ever appends the stripped, nonempty current line
to the narrative accumulator. -/
theorem parseStep_acc_sub (st : Int × String × List String) (line0 : String) :
    ∀ s ∈ (parseStep st line0).2.2,
      s ∈ st.2.2 ∨ (s = pyStrip line0 ∧ s.data ≠ []) := by
  intro s hs
  simp only [parseStep] at hs
  split_ifs at hs with hsc hp1 hm1 hcf hhi hlo hnar
  all_goals try exact Or.inl hs
  rcases List.mem_append.mp hs with hs2 | hs2
  · exact Or.inl hs2
  · have hseq : s = pyStrip line0 := by simpa using hs2
    refine Or.inr ⟨hseq, fun hdat => ?_⟩
    rw [hseq] at hdat
    have hbool := ((Bool.and_eq_true _ _).mp hnar).1
    rw [hdat] at hbool
    simp at hbool

/-- Invariant of the parsing fold: every accumulated narrative line is a
nonempty stripped string. -/
theorem parse_fold_acc :
    ∀ (lines : List String) (st : Int × String × List String),
      (∀ s ∈ st.2.2, s.data ≠ [] ∧ ∃ m, s.data = stripL m) →
      ∀ s ∈ (lines.foldl parseStep st).2.2,
        s.data ≠ [] ∧ ∃ m, s.data = stripL m := by
  intro lines
  induction lines with
  | nil => exact fun st h s hs => h s hs
  | cons line rest ih =>
    intro st h s hs
    rw [List.foldl_cons] at hs
    refine ih (parseStep st line) ?_ s hs
    intro u hu
    rcases parseStep_acc_sub st line u hu with h1 | ⟨h1, h2⟩
    · exact h u h1
    · refine ⟨h2, line.data, ?_⟩
      rw [h1]
      rfl

/-- Joining nonempty stripped lines with newlines and stripping the result
never yields the empty string. -/
theorem joinNl_strip_ne_empty {l : String} {rest : List String}
    (hx : ∃ x xs, l.data = x :: xs ∧ pySpace x = false) :
    (pyStrip (joinNl (l :: rest))).data ≠ [] := by
  obtain ⟨x, xs, hl, hxs⟩ := hx
  have hdata : ∃ w, (joinNl (l :: rest)).data = x :: w := by
    cases rest with
    | nil => exact ⟨xs, by simp [joinNl, hl]⟩
    | cons b bs =>
      refine ⟨xs ++ ('\n' :: (joinNl (b :: bs)).data), ?_⟩
      show (l ++ "\n" ++ joinNl (b :: bs)).data = _
      simp [String.data_append, hl]
  obtain ⟨w, hw⟩ := hdata
  show stripL (joinNl (l :: rest)).data ≠ []
  rw [hw]
  unfold stripL lstripL
  rw [List.dropWhile_cons]
  simp only [hxs, Bool.false_eq_true, if_false]
  rw [rstripL_cons_of_not_space hxs]
  simp

/-- Claim C7 amended: when the narrative portion parses to empty the parser
keeps the whole raw response as the analysis (no truncation, and the
confidence keeps its parsed value rather than being forced to "Low"); it
still never turns a nonempty response into an empty analysis. -/
theorem C7_amended :
    ∀ content : String,
      (narrative_lines content = [] →
        (parse_analysis_output content).analysis = content) ∧
      (content ≠ "" → (parse_analysis_output content).analysis ≠ "") := by
  intro content
  constructor
  · intro h
    simp [parse_analysis_output, h]
  · intro hne
    cases hnl : narrative_lines content with
    | nil =>
      simpa [parse_analysis_output, hnl] using hne
    | cons l rest =>
      have hinv : ∀ s ∈ narrative_lines content,
          s.data ≠ [] ∧ ∃ m, s.data = stripL m := by
        unfold narrative_lines parse_state
        exact parse_fold_acc _ _ (fun s hs => absurd hs (List.not_mem_nil s))
      have hl : l.data ≠ [] ∧ ∃ m, l.data = stripL m :=
        hinv l (by rw [hnl]; exact List.mem_cons_self l rest)
      have hshape : ∃ x xs, l.data = x :: xs ∧ pySpace x = false := by
        obtain ⟨m, hm⟩ := hl.2
        rcases stripL_shape m with h0 | ⟨x, xs, h0, hx0⟩
        · exact absurd (hm.trans h0) hl.1
        · exact ⟨x, xs, hm.trans h0, hx0⟩
      have hana : (parse_analysis_output content).analysis
          = pyStrip (joinNl (l :: rest)) := by
        simp [parse_analysis_output, hnl]
      rw [hana]
      intro heq
      exact joinNl_strip_ne_empty hshape (by rw [heq])

/-- Witness for claim C7 at concrete inputs. -/
theorem C7_amended_witness :
    (parse_analysis_output "SCORE: 0\nCONFIDENCE: Medium").analysis
      = "SCORE: 0\nCONFIDENCE: Medium" ∧
    (parse_analysis_output "Narrative.\nSCORE: 0").analysis ≠ "" :=
  ⟨(C7_amended "SCORE: 0\nCONFIDENCE: Medium").1 (by decide),
   (C7_amended "Narrative.\nSCORE: 0").2 (by decide)⟩

set_option maxRecDepth 100000 in
/-- The MD5 digest of "abc" matches the RFC 1321 test vector, validating the
embedding against hashlib. -/
theorem md5_rfc_test_vector :
    md5Hex (utf8Bytes "abc") = "900150983cd24fb0d6963f7d28e17f72" := by
  decide

/-- Every chunk step ends in reductions modulo 2^32. -/
theorem md5Chunk_lt (st : Nat × Nat × Nat × Nat) (chunk : List Nat) :
    (md5Chunk st chunk).1 < M32 ∧ (md5Chunk st chunk).2.1 < M32 ∧
    (md5Chunk st chunk).2.2.1 < M32 ∧ (md5Chunk st chunk).2.2.2 < M32 := by
  have hpos : 0 < M32 := by norm_num [M32]
  exact ⟨Nat.mod_lt _ hpos, Nat.mod_lt _ hpos, Nat.mod_lt _ hpos,
    Nat.mod_lt _ hpos⟩

/-- The final MD5 state words are 32-bit values. -/
theorem md5StateWords_lt (msg : List Nat) :
    (md5StateWords msg).1 < M32 ∧ (md5StateWords msg).2.1 < M32 ∧
    (md5StateWords msg).2.2.1 < M32 ∧ (md5StateWords msg).2.2.2 < M32 := by
  have key : ∀ (cs : List (List Nat)) (st : Nat × Nat × Nat × Nat),
      (st.1 < M32 ∧ st.2.1 < M32 ∧ st.2.2.1 < M32 ∧ st.2.2.2 < M32) →
      ((cs.foldl md5Chunk st).1 < M32 ∧ (cs.foldl md5Chunk st).2.1 < M32 ∧
        (cs.foldl md5Chunk st).2.2.1 < M32 ∧ (cs.foldl md5Chunk st).2.2.2 < M32) := by
    intro cs
    induction cs with
    | nil => exact fun st h => h
    | cons c t ih =>
      intro st _
      rw [List.foldl_cons]
      exact ih (md5Chunk st c) (md5Chunk_lt st c)
  exact key (chunks64 (md5Pad msg)) _ (by norm_num [M32])

/-- The MD5 state as an element of a finite type: four 32-bit words. -/
def md5Fin (msg : List Nat) : Fin M32 × Fin M32 × Fin M32 × Fin M32 :=
  ⟨⟨(md5StateWords msg).1, (md5StateWords_lt msg).1⟩,
   ⟨(md5StateWords msg).2.1, (md5StateWords_lt msg).2.1⟩,
   ⟨(md5StateWords msg).2.2.1, (md5StateWords_lt msg).2.2.1⟩,
   ⟨(md5StateWords msg).2.2.2, (md5StateWords_lt msg).2.2.2⟩⟩

/-- Equal final states give equal hex digests. -/
theorem md5Hex_congr {m1 m2 : List Nat} (h : md5Fin m1 = md5Fin m2) :
    md5Hex m1 = md5Hex m2 := by
  have ha := congrArg (fun p : Fin M32 × Fin M32 × Fin M32 × Fin M32 => p.1.val) h
  have hb := congrArg (fun p : Fin M32 × Fin M32 × Fin M32 × Fin M32 => p.2.1.val) h
  have hc := congrArg
    (fun p : Fin M32 × Fin M32 × Fin M32 × Fin M32 => p.2.2.1.val) h
  have hd := congrArg
    (fun p : Fin M32 × Fin M32 × Fin M32 × Fin M32 => p.2.2.2.val) h
  simp only [md5Fin] at ha hb hc hd
  have h1 : md5StateWords m1 = md5StateWords m2 :=
    Prod.ext ha (Prod.ext hb (Prod.ext hc hd))
  unfold md5Hex
  rw [h1]

/-- Colliding digests give colliding cache keys. -/
theorem create_cache_key_congr {op p1 p2 q : String}
    (h : md5Fin (utf8Bytes (cache_input op p1 q)) =
      md5Fin (utf8Bytes (cache_input op p2 q))) :
    create_cache_key op p1 q = create_cache_key op p2 q :=
  md5Hex_congr h

/-- A project name consisting of n letters a. -/
def repA (n : Nat) : String := String.mk (List.replicate n 'a')

/-- Distinct lengths give distinct such project names. -/
theorem repA_inj {n m : Nat} (h : repA n = repA m) : n = m := by
  have := congrArg (fun s : String => s.data.length) h
  simpa [repA] using this

/-- Claim C2 counterexample: the cache key is a 128-bit MD5 digest, so the
map from project names to keys (for a fixed operation and question) takes
infinitely many inputs into a finite codomain; by the pigeonhole principle
two distinct project names must share a key, refuting the universally
quantified isolation property as stated. -/
theorem C2_counterexample :
    ¬ ∀ (op p1 p2 q : String), p1 ≠ p2 →
        create_cache_key op p1 q ≠ create_cache_key op p2 q := by
  intro hclaim
  obtain ⟨n, m, hnm, heq⟩ :=
    Finite.exists_ne_map_eq_of_infinite (fun n : Nat =>
      md5Fin (utf8Bytes (cache_input "research_q1" (repA n) "Gap-Filler?")))
  exact hclaim "research_q1" (repA n) (repA m) "Gap-Filler?"
    (fun hp => hnm (repA_inj hp)) (create_cache_key_congr heq)

/-- Claim C2 amended: the key derivation is deterministic; distinct project
names always give distinct pre-hash inputs (the colon-joined triple is
injective in the project for fixed operation and question), so distinct
projects share a key only when MD5 itself collides on those inputs; and
distinct keys always mean distinct projects. -/
theorem C2_amended :
    (∀ op p q : String, create_cache_key op p q = create_cache_key op p q) ∧
    (∀ op p1 p2 q : String,
      cache_input op p1 q = cache_input op p2 q ↔ p1 = p2) ∧
    (∀ op p1 p2 q : String,
      create_cache_key op p1 q ≠ create_cache_key op p2 q → p1 ≠ p2) := by
  refine ⟨fun _ _ _ => rfl, ?_, ?_⟩
  · intro op p1 p2 q
    constructor
    · intro h
      have hd := congrArg String.data h
      simp only [cache_input, String.data_append, List.append_assoc] at hd
      have hd2 := List.append_cancel_left hd
      have hd3 := List.append_cancel_left hd2
      have hlen : p1.data.length = p2.data.length := by
        have := congrArg List.length hd3
        simp only [List.length_append] at this
        omega
      exact String.ext (List.append_inj hd3 hlen).1
    · intro h
      rw [h]
  · intro op p1 p2 q h hp
    exact h (by rw [hp])

set_option maxRecDepth 100000 in
/-- Witness for claim C2 at concrete inputs: two concrete distinct project
names whose concretely computed MD5 keys differ. -/
theorem C2_amended_witness :
    create_cache_key "analysis_q1" "ProjA" "Gap-Filler?" =
      create_cache_key "analysis_q1" "ProjA" "Gap-Filler?" ∧
    ("ProjA" : String) ≠ "ProjB" ∧
    cache_input "analysis_q1" "ProjA" "Gap-Filler?" ≠
      cache_input "analysis_q1" "ProjB" "Gap-Filler?" :=
  ⟨C2_amended.1 "analysis_q1" "ProjA" "Gap-Filler?",
   by decide,
   fun h => by
     have := (C2_amended.2.1 "analysis_q1" "ProjA" "ProjB" "Gap-Filler?").mp h
     exact absurd this (by decide)⟩
